import Mathlib

/-!
# Verification of the PI-SAC loss-computation core and encoders

Shallow embedding of the PI-SAC repository (`pisac/sac_agent` losses and
training orchestration, `pisac/encoders` networks), with theorems settling
the specification claims.

Tensors of floats are modelled with real numbers (`ℝ`); batched tensors are
modelled as lists of per-example values (all loss computations in the source
are elementwise over the batch followed by a batch mean).

The agent implementation (`pisac/sac_agent.py`) is not part of the sources
available here; only its test file is.  Definitions for the agent are
therefore modelled from the spec (their doc comments say so); the dummy
networks (`DummyCriticNet`, `DummyActorPolicy`, `_MockDistribution`) are
translated from `pisac/sac_agent_test.py`, and the encoders from
`pisac/encoders.py`.
-/

namespace Pisac

/-- Batch mean of a list of reals: `tf.reduce_mean` over the batch axis.
The empty batch gives `0 / 0 = 0`, matching no claim's use. -/
noncomputable def mean (l : List ℝ) : ℝ := l.sum / l.length

/-- A single (per-example) TF-Agents `TimeStep`: step type (0 = FIRST,
1 = MID, 2 = LAST), reward, discount and observation. -/
structure TimeStep (Obs : Type) where
  step_type : ℕ
  reward : ℝ
  discount : ℝ
  observation : Obs

/-- `ts.restart(observation)`: a FIRST step with zero reward, discount 1. -/
def TimeStep.restart {Obs : Type} (o : Obs) : TimeStep Obs :=
  ⟨0, 0, 1, o⟩

/-- `ts.transition(observation, reward, discount)`: a MID step. -/
def TimeStep.transition {Obs : Type} (o : Obs) (r d : ℝ) : TimeStep Obs :=
  ⟨1, r, d, o⟩

/-- Modelled from the spec: the PI-SAC agent's state as the loss functions
see it (`pisac/sac_agent.py` is not among the available sources).  Per §3 of
the spec it owns twin online critics, twin target critics, the actor's
distribution (here its sampling function and log-probability), the scalar
`log_alpha` parameter, the target entropy and the discount factor `gamma`.
Networks are the spec's "differentiable function interface": plain functions
from observation (and action, for critics) to a scalar. -/
structure SacAgent (Obs Act : Type) where
  critic1 : Obs → Act → ℝ
  critic2 : Obs → Act → ℝ
  target_critic1 : Obs → Act → ℝ
  target_critic2 : Obs → Act → ℝ
  actor_sample : Obs → Act
  actor_log_prob : Obs → Act → ℝ
  log_alpha : ℝ
  target_entropy : ℝ
  gamma : ℝ

/-- Modelled from the spec (§3, §4.1): the temperature, `alpha =
exp(log_alpha)`, used (gradient-stopped) by the critic and actor losses. -/
noncomputable def SacAgent.alpha {Obs Act : Type} (ag : SacAgent Obs Act) : ℝ :=
  Real.exp ag.log_alpha

/-- Modelled from the spec (§4.1 steps 1–3): the per-example TD targets
`y = reward + discount · γ · (min(target_critic_1(s',a'), target_critic_2(s',a'))
− alpha · log_prob(a'|s'))`, with `a'` sampled from the actor's distribution at
the next observation, and rewards/discounts taken from `next_time_steps`. -/
noncomputable def SacAgent.tdTargets {Obs Act : Type} (ag : SacAgent Obs Act)
    (next_time_steps : List (TimeStep Obs)) : List ℝ :=
  next_time_steps.map (fun ns =>
    let a := ag.actor_sample ns.observation
    let lp := ag.actor_log_prob ns.observation a
    let target_q :=
      min (ag.target_critic1 ns.observation a) (ag.target_critic2 ns.observation a)
        - ag.alpha * lp
    ns.reward + ns.discount * ag.gamma * target_q)

/-- Modelled from the spec (§4.2): TD targets of the auxiliary-augmented
("Q-Aug") critic loss: identical to `SacAgent.tdTargets` except that the
externally supplied `target_obs` replaces the next observation in the target
critics' observation input only (the actor's sample and log-probability still
use the true next observation). -/
noncomputable def SacAgent.tdTargetsQAug {Obs Act : Type} (ag : SacAgent Obs Act)
    (next_time_steps : List (TimeStep Obs)) (target_obs : List Obs) : List ℝ :=
  (next_time_steps.zip target_obs).map (fun p =>
    let a := ag.actor_sample p.1.observation
    let lp := ag.actor_log_prob p.1.observation a
    let target_q :=
      min (ag.target_critic1 p.2 a) (ag.target_critic2 p.2 a) - ag.alpha * lp
    p.1.reward + p.1.discount * ag.gamma * target_q)

/-- Modelled from the spec (§4.1 step 4): predicted Q-values of one online
critic on the batch of (observation, action) pairs. -/
def SacAgent.preds {Obs Act : Type} (critic : Obs → Act → ℝ)
    (time_steps : List (TimeStep Obs)) (actions : List Act) : List ℝ :=
  (time_steps.zip actions).map (fun p => critic p.1.observation p.2)

/-- Modelled from the spec (§4.1 step 5): total critic loss = sum over the
two online critics of the batch-mean elementwise loss between the
(gradient-stopped) TD targets and the critic's predictions, with the
elementwise loss given by the supplied TD-error loss function. -/
noncomputable def SacAgent.critic_loss {Obs Act : Type} (ag : SacAgent Obs Act)
    (time_steps : List (TimeStep Obs)) (actions : List Act)
    (next_time_steps : List (TimeStep Obs))
    (td_errors_loss_fn : ℝ → ℝ → ℝ) : ℝ :=
  let targets := ag.tdTargets next_time_steps
  let preds1 := SacAgent.preds ag.critic1 time_steps actions
  let preds2 := SacAgent.preds ag.critic2 time_steps actions
  mean ((targets.zip preds1).map (fun p => td_errors_loss_fn p.1 p.2))
    + mean ((targets.zip preds2).map (fun p => td_errors_loss_fn p.1 p.2))

/-- Modelled from the spec (§4.2): the auxiliary-augmented critic loss,
identical to `SacAgent.critic_loss` but with `target_obs` substituted into
the target critics' observation input. -/
noncomputable def SacAgent.critic_loss_q_aug {Obs Act : Type} (ag : SacAgent Obs Act)
    (time_steps : List (TimeStep Obs)) (actions : List Act)
    (next_time_steps : List (TimeStep Obs)) (target_obs : List Obs)
    (td_errors_loss_fn : ℝ → ℝ → ℝ) : ℝ :=
  let targets := ag.tdTargetsQAug next_time_steps target_obs
  let preds1 := SacAgent.preds ag.critic1 time_steps actions
  let preds2 := SacAgent.preds ag.critic2 time_steps actions
  mean ((targets.zip preds1).map (fun p => td_errors_loss_fn p.1 p.2))
    + mean ((targets.zip preds2).map (fun p => td_errors_loss_fn p.1 p.2))

/-- Modelled from the spec (§4.3): actor loss = batch-mean of
`alpha · log_prob − Q` where `a` is sampled from the actor's distribution at
`time_step.observation` and `Q = min(critic_1(s,a), critic_2(s,a))` uses the
online critics. -/
noncomputable def SacAgent.actor_loss {Obs Act : Type} (ag : SacAgent Obs Act)
    (time_steps : List (TimeStep Obs)) : ℝ :=
  mean (time_steps.map (fun t =>
    let a := ag.actor_sample t.observation
    let lp := ag.actor_log_prob t.observation a
    let q := min (ag.critic1 t.observation a) (ag.critic2 t.observation a)
    ag.alpha * lp - q))

/-- Modelled from the spec (§4.4, §8, pinned by the worked test): alpha loss
= batch-mean of `alpha_param · (−log_prob − target_entropy)` where the raw
`log_alpha` parameter is used directly as the multiplicative scalar (not its
exponential). -/
noncomputable def SacAgent.alpha_loss {Obs Act : Type} (ag : SacAgent Obs Act)
    (time_steps : List (TimeStep Obs)) : ℝ :=
  mean (time_steps.map (fun t =>
    let a := ag.actor_sample t.observation
    let lp := ag.actor_log_prob t.observation a
    ag.log_alpha * (-lp - ag.target_entropy)))

/-! ## Dummy networks from `pisac/sac_agent_test.py` -/

/-- `DummyCriticNet.call` (from `sac_agent_test.py`): the value layer has
kernel `[[0],[1]]` and zero bias, the action layer kernel `[[1]]` and zero
bias, and no shared layer, so `q(s, a) = (0·s₀ + 1·s₁) + 1·a`. -/
def dummyCriticNet (s : ℝ × ℝ) (a : ℝ) : ℝ :=
  (0 * s.1 + 1 * s.2) + 1 * a

/-- `_MockDistribution.log_prob` (from `sac_agent_test.py`): the constant 10. -/
def mockLogProb (_s : ℝ × ℝ) (_a : ℝ) : ℝ := 10

/-- A bounded action spec (`tensor_spec.BoundedTensorSpec`): closed interval
`[minimum, maximum]` for each action component. -/
structure BoundedSpec where
  minimum : ℝ
  maximum : ℝ

/-- The action spec of the test fixtures: `BoundedTensorSpec([1], -1, 1)`.
Its interval is nonempty (minimum ≤ maximum), the invariant of a bounded
tensor spec. -/
def fixtureActionSpec : BoundedSpec := ⟨-1, 1⟩

/-- `DummyActorPolicy.action` (from `sac_agent_test.py`): for an observation
batch of the given size, returns the batch of constant actions equal to the
action spec's maximum. -/
def dummyActorPolicyAction (spec : BoundedSpec) (batch_size : ℕ) : List ℝ :=
  List.replicate batch_size spec.maximum

/-- `DummyActorPolicy`'s sampling function: the distribution's sample is the
constant action `spec.maximum` regardless of the observation. -/
def dummyActorSample (spec : BoundedSpec) : ℝ × ℝ → ℝ := fun _ => spec.maximum

/-- Modelled from the spec (§3 agent configuration and the test fixtures):
the agent built by the tests with `DummyCriticNet` and `DummyActorPolicy`.
The twin critics and their target copies are clones of the constant-initialized
dummy critic, so all four coincide; defaults `gamma = 1` and
`initial_log_alpha = 0` apply unless overridden. -/
def mkDummyAgent (initial_log_alpha : ℝ) (target_entropy : ℝ) :
    SacAgent (ℝ × ℝ) ℝ :=
  { critic1 := dummyCriticNet
    critic2 := dummyCriticNet
    target_critic1 := dummyCriticNet
    target_critic2 := dummyCriticNet
    actor_sample := dummyActorSample fixtureActionSpec
    actor_log_prob := mockLogProb
    log_alpha := initial_log_alpha
    target_entropy := target_entropy
    gamma := 1 }

/-- The agent of `testCriticLoss`/`testActorLoss` etc.: all defaults. -/
def defaultDummyAgent : SacAgent (ℝ × ℝ) ℝ := mkDummyAgent 0 (-1)

/-- The current time steps of the critic-loss fixture:
`ts.restart([[1,2],[3,4]])`. -/
def fixtureTimeSteps : List (TimeStep (ℝ × ℝ)) :=
  [TimeStep.restart (1, 2), TimeStep.restart (3, 4)]

/-- The actions of the critic-loss fixture: `[[5],[6]]`. -/
def fixtureActions : List ℝ := [5, 6]

/-- The next time steps of the critic-loss fixture:
`ts.transition([[5,6],[7,8]], rewards=[10,20], discounts=[0.9,0.9])`. -/
def fixtureNextTimeSteps : List (TimeStep (ℝ × ℝ)) :=
  [TimeStep.transition (5, 6) 10 0.9, TimeStep.transition (7, 8) 20 0.9]

/-- Squared-difference elementwise TD loss (`tf.math.squared_difference`). -/
def squaredDifference (y p : ℝ) : ℝ := (y - p) ^ 2

/-! ## Training orchestrator and trajectory data model -/

/-- A per-index element of a TF-Agents `Trajectory` (spec §3): a
time-extended tuple of step type, observation, action, next step type, and
the next step's reward and discount (stored as "reward"/"discount"). -/
structure TrajStep (Obs Act : Type) where
  step_type : ℕ
  observation : Obs
  action : Act
  next_step_type : ℕ
  reward : ℝ
  discount : ℝ

/-- A batch of time sequences of trajectory steps, the `experience`
consumed by `train` (batch-major, each element a time sequence). -/
def Experience (Obs Act : Type) : Type := List (List (TrajStep Obs Act))

/-- Modelled from the spec (§4.6, §6): the training orchestrator's
configuration.  Gradient computation and optimizer application are external
services (spec §1 out-of-scope list), modelled as the three supplied
parameter-update maps, each reading the experience; `auto_step` selects the
auto-incrementing counter mode; the target synchronizer (§4.5) is the
supplied Polyak-update map applied every `target_update_period` steps. -/
structure TrainConfig (Θ Obs Act : Type) where
  critic_step : Θ → Experience Obs Act → Θ
  actor_step : Θ → Experience Obs Act → Θ
  alpha_step : ℝ → Experience Obs Act → ℝ
  auto_step : Bool
  target_update_period : ℕ
  target_update : Θ → Θ → Θ

/-- Modelled from the spec (§3, §4.6): the mutable training state — online
critic, actor and target-critic parameters, the `log_alpha` scalar, and the
monotonically increasing step counter. -/
structure TrainState (Θ : Type) where
  critic_params : Θ
  actor_params : Θ
  target_critic_params : Θ
  log_alpha : ℝ
  counter : ℕ

/-- Modelled from the spec (§4.6): one completed `train(experience)` call.
It sequences the critic, actor and alpha optimizer steps, increments the
step counter by 1 exactly when auto-stepping is enabled, and then triggers
the target-network synchronizer check (§4.5: every `target_update_period`
completed steps). -/
def train {Θ Obs Act : Type} (cfg : TrainConfig Θ Obs Act)
    (st : TrainState Θ) (experience : Experience Obs Act) : TrainState Θ :=
  let c := cfg.critic_step st.critic_params experience
  let a := cfg.actor_step st.actor_params experience
  let la := cfg.alpha_step st.log_alpha experience
  let counter := if cfg.auto_step then st.counter + 1 else st.counter
  let t :=
    if counter % cfg.target_update_period = 0 then
      cfg.target_update c st.target_critic_params
    else st.target_critic_params
  ⟨c, a, t, la, counter⟩

/-- The 3-step, batch-5 trajectory fixture of `testTrainWithRnn`:
observations `[[1,2],[3,4],[5,6]]`, actions `[[0],[1],[1]]`, rewards 1,
discounts 1, step types 1, replicated across a batch of 5. -/
def fixtureExperience : Experience (ℝ × ℝ) ℝ :=
  List.replicate 5
    [⟨1, (1, 2), 0, 1, 1, 1⟩, ⟨1, (3, 4), 1, 1, 1, 1⟩, ⟨1, (5, 6), 1, 1, 1, 1⟩]

/-- A training configuration for the fixture agent: update maps supplied by
the external optimizer service (here the identity updates are enough to
exercise the counter), auto-stepping enabled. -/
def fixtureTrainConfig : TrainConfig ℝ (ℝ × ℝ) ℝ :=
  { critic_step := fun p _ => p
    actor_step := fun p _ => p
    alpha_step := fun p _ => p
    auto_step := true
    target_update_period := 1
    target_update := fun online _ => online }

/-- The initial training state of `testTrainWithRnn`: counter 0. -/
def fixtureTrainState : TrainState ℝ := ⟨0, 0, 0, 0, 0⟩

/-! ## Encoders (`pisac/encoders.py`) -/

/-- `BatchSquash.flatten` at the shape level (from `tf_agents.networks.utils`,
used by `FRNConv.call` and `MVNormalDiagParamHead.call`): collapse the
`outer_rank` leading dimensions into one batch dimension. -/
def batchSquashFlattenShape (outer_rank : ℕ) (s : List ℕ) : List ℕ :=
  (s.take outer_rank).prod :: s.drop outer_rank

/-- `BatchSquash.unflatten` at the shape level: restore the saved leading
dimensions in place of the collapsed batch dimension. -/
def batchSquashUnflattenShape (outer : List ℕ) (s : List ℕ) : List ℕ :=
  outer ++ s.drop 1

/-- `FRNConv.call` at the shape level (`encoders.py` lines 71–84): with
`batch_squash` enabled, compute the outer rank from the input spec's rank,
flatten the leading dimensions, apply the inner Keras encoder (a black-box
shape map per spec §1), and unflatten the result. -/
def frnConvCallShape (spec_rank : ℕ) (encoder : List ℕ → List ℕ)
    (batch_squash : Bool) (s : List ℕ) : List ℕ :=
  if batch_squash then
    batchSquashUnflattenShape (s.take (s.length - spec_rank))
      (encoder (batchSquashFlattenShape (s.length - spec_rank) s))
  else encoder s

/-- `MVNormalDiagParamHead.call` at the shape level (`encoders.py` lines
135–152): the batch-squash pattern around the fully connected encoder,
followed by slicing the last axis into `loc = states[..., :output_dim]` and
a `scale_diag` of the same shape as `loc`. -/
def mvnHeadCallShape (spec_rank output_dim : ℕ) (fc : List ℕ → List ℕ)
    (batch_squash : Bool) (s : List ℕ) : List ℕ × List ℕ :=
  let states :=
    if batch_squash then
      batchSquashUnflattenShape (s.take (s.length - spec_rank))
        (fc (batchSquashFlattenShape (s.length - spec_rank) s))
    else fc s
  (states.dropLast ++ [output_dim], states.dropLast ++ [output_dim])

/-- `tf.nn.softplus`: `log(1 + exp x)`. -/
noncomputable def softplus (x : ℝ) : ℝ := Real.log (1 + Real.exp x)

/-- The elementwise value computation of `MVNormalDiagParamHead.call`
(`encoders.py` lines 141–152) on one example's feature vector: the fully
connected encoder's output is split into `loc = states[..., :output_dim]`
and, if `scale` is `None`, `scale_diag = softplus(states[..., output_dim:])
· (0.693 / softplus(0)) + 1e-6`, else `scale_diag = ones_like(loc) · scale`. -/
noncomputable def mvnHeadCall (scale : Option ℝ) (output_dim : ℕ)
    (fc : List ℝ → List ℝ) (input : List ℝ) : List ℝ × List ℝ :=
  let states := fc input
  let loc := states.take output_dim
  let scale_diag :=
    match scale with
    | none =>
      (states.drop output_dim).map (fun r => softplus r * (0.693 / softplus 0) + 1e-6)
    | some sc => loc.map (fun _ => 1 * sc)
  (loc, scale_diag)

/-- `FRN.call` (`encoders.py` lines 197–202) at one output position of a
`[B,H,W,C]` input: `nu2` is the mean of squares over the spatial axes 1 and
2, the input is scaled by `rsqrt(nu2 + reg_epsilon)`, an affine transform by
the per-channel `gamma` and `beta` is applied, and the thresholded linear
unit takes the elementwise maximum with the per-channel `tau`. -/
noncomputable def frnCall (B H W C : ℕ) (reg_epsilon : ℝ)
    (gamma beta tau : Fin C → ℝ) (x : Fin B → Fin H → Fin W → Fin C → ℝ)
    (b : Fin B) (i : Fin H) (j : Fin W) (c : Fin C) : ℝ :=
  let nu2 := (∑ p : Fin H, ∑ q : Fin W, x b p q c ^ 2) / (H * W)
  let xn := x b i j c * (Real.sqrt (nu2 + reg_epsilon))⁻¹
  max (gamma c * xn + beta c) (tau c)

/-! ## Helper lemmas -/

theorem mean_nonneg {l : List ℝ} (h : ∀ x ∈ l, 0 ≤ x) : 0 ≤ mean l :=
  div_nonneg (List.sum_nonneg h) (Nat.cast_nonneg _)

theorem sum_map_const_sub {α : Type} (L : ℝ) (f : α → ℝ) (l : List α) :
    (l.map (fun t => L - f t)).sum = l.length * L - (l.map f).sum := by
  induction l with
  | nil => simp
  | cons a t ih => simp [ih]; ring

theorem mean_of_const {α : Type} (c : ℝ) (f : α → ℝ) (l : List α)
    (hne : l ≠ []) (hc : ∀ x ∈ l, f x = c) : mean (l.map f) = c := by
  have h1 : l.map f = l.map (fun _ => c) := List.map_congr_left hc
  have h2 : (l.map (fun _ => c)).sum = l.length * c := by
    induction l with
    | nil => simp
    | cons a t ih => simp_all; ring
  have hn : (l.length : ℝ) ≠ 0 := by
    have h0 : l.length ≠ 0 := fun h0 => hne (List.length_eq_zero.mp h0)
    exact_mod_cast h0
  rw [mean, h1, h2, List.length_map]
  field_simp

/-! ## Claim theorems -/

/-- C1: on the two-example critic-loss fixture (observations `[[1,2],[3,4]]`,
actions `[[5],[6]]`, rewards `[10,20]`, discounts `[0.9,0.9]`, next
observations `[[5,6],[7,8]]`, dummy critic `Q(s,a) = s₁ + a`, mock
log-probability 10, `alpha = 1`, squared-difference TD loss), the TD targets
are `[7.3, 19.1]`, the predicted Q-values are `[7, 10]`, and `critic_loss`
returns `2 ·` the mean squared error between them, i.e. `82.9`; and in
general `critic_loss` equals exactly `2 ·` the mean squared TD error whenever
both critics produce identical predictions. -/
theorem critic_loss_twin_mse {Obs Act : Type} (ag : SacAgent Obs Act)
    (ts : List (TimeStep Obs)) (acts : List Act) (nts : List (TimeStep Obs))
    (h : SacAgent.preds ag.critic1 ts acts = SacAgent.preds ag.critic2 ts acts) :
    ag.critic_loss ts acts nts squaredDifference =
        2 * mean (((ag.tdTargets nts).zip (SacAgent.preds ag.critic1 ts acts)).map
          (fun p => squaredDifference p.1 p.2))
      ∧ defaultDummyAgent.tdTargets fixtureNextTimeSteps = [7.3, 19.1]
      ∧ SacAgent.preds defaultDummyAgent.critic1 fixtureTimeSteps fixtureActions
          = [7, 10]
      ∧ defaultDummyAgent.critic_loss fixtureTimeSteps fixtureActions
          fixtureNextTimeSteps squaredDifference = 82.9 := by
  refine ⟨?_, ?_, ?_, ?_⟩
  · simp only [SacAgent.critic_loss, ← h]
    ring
  · simp [SacAgent.tdTargets, defaultDummyAgent, mkDummyAgent, dummyCriticNet,
      mockLogProb, dummyActorSample, fixtureActionSpec, fixtureNextTimeSteps,
      TimeStep.transition, SacAgent.alpha, min_def]
    norm_num
  · simp [SacAgent.preds, defaultDummyAgent, mkDummyAgent, dummyCriticNet,
      fixtureTimeSteps, fixtureActions, TimeStep.restart, List.zip]
    norm_num
  · simp [SacAgent.critic_loss, SacAgent.tdTargets, SacAgent.preds, mean,
      defaultDummyAgent, mkDummyAgent, dummyCriticNet, mockLogProb,
      dummyActorSample, fixtureActionSpec, fixtureTimeSteps, fixtureActions,
      fixtureNextTimeSteps, squaredDifference, TimeStep.restart,
      TimeStep.transition, SacAgent.alpha, min_def]
    norm_num

/-- Witness for C1: the twin-critic factor-of-two identity instantiated on
the literal test fixture (the dummy agent's two critics coincide). -/
theorem critic_loss_twin_mse_witness :
    defaultDummyAgent.critic_loss fixtureTimeSteps fixtureActions
          fixtureNextTimeSteps squaredDifference =
        2 * mean (((defaultDummyAgent.tdTargets fixtureNextTimeSteps).zip
          (SacAgent.preds defaultDummyAgent.critic1 fixtureTimeSteps fixtureActions)).map
          (fun p => squaredDifference p.1 p.2))
      ∧ defaultDummyAgent.tdTargets fixtureNextTimeSteps = [7.3, 19.1]
      ∧ SacAgent.preds defaultDummyAgent.critic1 fixtureTimeSteps fixtureActions
          = [7, 10]
      ∧ defaultDummyAgent.critic_loss fixtureTimeSteps fixtureActions
          fixtureNextTimeSteps squaredDifference = 82.9 :=
  critic_loss_twin_mse defaultDummyAgent fixtureTimeSteps fixtureActions
    fixtureNextTimeSteps rfl

/-- C2: for every batch of N time steps on which the actor's distribution
yields the constant log-probability `L`, with `alpha = 1` (`log_alpha = 0`,
the default `initial_log_alpha`), `actor_loss` is the batch mean of
`alpha · log_prob − Q` with `Q` the minimum of the online twin critics,
i.e. `(N·L − Σᵢ Qᵢ)/N`; on the literal fixture (N = 2, L = 10, Q = [3, 5])
the result is 6. -/
theorem actor_loss_closed_form {Obs Act : Type} (ag : SacAgent Obs Act)
    (ts : List (TimeStep Obs)) (L : ℝ)
    (hL : ∀ t ∈ ts, ag.actor_log_prob t.observation (ag.actor_sample t.observation) = L)
    (ha : ag.log_alpha = 0) :
    ag.actor_loss ts =
        ((ts.length : ℝ) * L
          - (ts.map (fun t =>
              min (ag.critic1 t.observation (ag.actor_sample t.observation))
                (ag.critic2 t.observation (ag.actor_sample t.observation)))).sum)
          / ts.length
      ∧ defaultDummyAgent.actor_loss fixtureTimeSteps = 6 := by
  constructor
  · have halpha : ag.alpha = 1 := by simp [SacAgent.alpha, ha]
    have hmap : ts.map (fun t =>
        let a := ag.actor_sample t.observation
        let lp := ag.actor_log_prob t.observation a
        let q := min (ag.critic1 t.observation a) (ag.critic2 t.observation a)
        ag.alpha * lp - q)
        = ts.map (fun t => L -
            min (ag.critic1 t.observation (ag.actor_sample t.observation))
              (ag.critic2 t.observation (ag.actor_sample t.observation))) := by
      refine List.map_congr_left ?_
      intro t ht
      simp [halpha, hL t ht]
    rw [SacAgent.actor_loss, hmap, mean, sum_map_const_sub, List.length_map]
  · simp [SacAgent.actor_loss, mean, defaultDummyAgent, mkDummyAgent,
      dummyCriticNet, mockLogProb, dummyActorSample, fixtureActionSpec,
      fixtureTimeSteps, TimeStep.restart, SacAgent.alpha, min_def]
    norm_num

/-- Witness for C2: the closed form instantiated on the literal fixture
(the dummy agent's log-probability is the constant 10, `log_alpha = 0`). -/
theorem actor_loss_closed_form_witness :
    defaultDummyAgent.actor_loss fixtureTimeSteps =
        ((fixtureTimeSteps.length : ℝ) * 10
          - (fixtureTimeSteps.map (fun t =>
              min (defaultDummyAgent.critic1 t.observation
                  (defaultDummyAgent.actor_sample t.observation))
                (defaultDummyAgent.critic2 t.observation
                  (defaultDummyAgent.actor_sample t.observation)))).sum)
          / fixtureTimeSteps.length
      ∧ defaultDummyAgent.actor_loss fixtureTimeSteps = 6 :=
  actor_loss_closed_form defaultDummyAgent fixtureTimeSteps 10
    (fun _ _ => rfl) rfl

/-- C3: for an agent with `initial_log_alpha = 4` and `target_entropy = 3`,
on any nonempty batch where the actor's distribution yields the constant
log-probability 10, `alpha_loss` returns `alpha_param · (−log_prob −
target_entropy)` with the raw log-alpha parameter used directly as the
multiplicative scalar (not its exponential): `4 · (−10 − 3) = −52`; in
particular the literal fixture agent returns −52. -/
theorem alpha_loss_closed_form {Obs Act : Type} (ag : SacAgent Obs Act)
    (ts : List (TimeStep Obs)) (hne : ts ≠ [])
    (hL : ∀ t ∈ ts, ag.actor_log_prob t.observation (ag.actor_sample t.observation) = 10)
    (ha : ag.log_alpha = 4) (hte : ag.target_entropy = 3) :
    ag.alpha_loss ts = 4 * (-10 - 3)
      ∧ (mkDummyAgent 4 3).alpha_loss fixtureTimeSteps = -52 := by
  constructor
  · rw [SacAgent.alpha_loss]
    refine mean_of_const _ _ _ hne ?_
    intro t ht
    simp [hL t ht, ha, hte]
  · simp [SacAgent.alpha_loss, mean, mkDummyAgent, mockLogProb,
      dummyActorSample, fixtureActionSpec, fixtureTimeSteps, TimeStep.restart]
    norm_num

/-- Witness for C3: the alpha-loss closed form instantiated on the literal
fixture agent (`initial_log_alpha = 4`, `target_entropy = 3`). -/
theorem alpha_loss_closed_form_witness :
    (mkDummyAgent 4 3).alpha_loss fixtureTimeSteps = 4 * (-10 - 3)
      ∧ (mkDummyAgent 4 3).alpha_loss fixtureTimeSteps = -52 :=
  alpha_loss_closed_form (mkDummyAgent 4 3) fixtureTimeSteps
    (by simp [fixtureTimeSteps]) (fun _ _ => rfl) rfl rfl

/-- C4: for every batch and every TD-error loss function,
`critic_loss_q_aug` with `target_obs` equal to the next time steps'
observations returns the same scalar as `critic_loss`: the two losses differ
only in the observation fed to the target critics. -/
theorem critic_loss_q_aug_eq_critic_loss {Obs Act : Type}
    (ag : SacAgent Obs Act) (ts : List (TimeStep Obs)) (acts : List Act)
    (nts : List (TimeStep Obs)) (f : ℝ → ℝ → ℝ) :
    ag.critic_loss_q_aug ts acts nts (nts.map TimeStep.observation) f
      = ag.critic_loss ts acts nts f := by
  have h : ag.tdTargetsQAug nts (nts.map TimeStep.observation)
      = ag.tdTargets nts := by
    unfold SacAgent.tdTargetsQAug SacAgent.tdTargets
    induction nts with
    | nil => simp
    | cons a l ih => simp_all [List.zip]
  simp [SacAgent.critic_loss_q_aug, SacAgent.critic_loss, h]

/-- C5: for every batch, when the TD-error loss function is squared
difference, `critic_loss` is nonnegative (a sum over the two critics of
batch means of squares). -/
theorem critic_loss_nonneg {Obs Act : Type} (ag : SacAgent Obs Act)
    (ts : List (TimeStep Obs)) (acts : List Act) (nts : List (TimeStep Obs)) :
    0 ≤ ag.critic_loss ts acts nts squaredDifference := by
  have h1 : 0 ≤ mean (((ag.tdTargets nts).zip
      (SacAgent.preds ag.critic1 ts acts)).map
      (fun p => squaredDifference p.1 p.2)) := by
    apply mean_nonneg
    intro x hx
    simp only [List.mem_map] at hx
    obtain ⟨p, _, rfl⟩ := hx
    exact sq_nonneg _
  have h2 : 0 ≤ mean (((ag.tdTargets nts).zip
      (SacAgent.preds ag.critic2 ts acts)).map
      (fun p => squaredDifference p.1 p.2)) := by
    apply mean_nonneg
    intro x hx
    simp only [List.mem_map] at hx
    obtain ⟨p, _, rfl⟩ := hx
    exact sq_nonneg _
  exact add_nonneg h1 h2

/-- C6: with auto-stepping enabled, one completed `train(experience)` call
increments the step counter by exactly 1; on the test fixture (a batch of
3-step trajectories) the counter reads 0 before and 1 after the call. -/
theorem train_auto_step_increments_counter {Θ Obs Act : Type}
    (cfg : TrainConfig Θ Obs Act) (st : TrainState Θ)
    (e : Experience Obs Act) (h : cfg.auto_step = true) :
    (train cfg st e).counter = st.counter + 1
      ∧ fixtureTrainState.counter = 0
      ∧ (train fixtureTrainConfig fixtureTrainState fixtureExperience).counter
          = 1 := by
  refine ⟨?_, rfl, rfl⟩
  simp [train, h]

/-- Witness for C6: one `train` call on the fixture experience with
auto-stepping enabled takes the counter from 0 to 1. -/
theorem train_auto_step_increments_counter_witness :
    (train fixtureTrainConfig fixtureTrainState fixtureExperience).counter
        = fixtureTrainState.counter + 1
      ∧ fixtureTrainState.counter = 0
      ∧ (train fixtureTrainConfig fixtureTrainState fixtureExperience).counter
          = 1 :=
  train_auto_step_increments_counter fixtureTrainConfig fixtureTrainState
    fixtureExperience rfl

/-- C7: every component of the action returned by the agent's policy
(`DummyActorPolicy.action`, the policy the fixture agent is constructed
with) lies within the closed interval `[minimum, maximum]` of the bounded
action spec supplied at construction. -/
theorem policy_action_within_action_spec (spec : BoundedSpec)
    (h : spec.minimum ≤ spec.maximum) (batch_size : ℕ) (a : ℝ)
    (ha : a ∈ dummyActorPolicyAction spec batch_size) :
    spec.minimum ≤ a ∧ a ≤ spec.maximum := by
  have haeq : a = spec.maximum := List.eq_of_mem_replicate ha
  subst haeq
  exact ⟨h, le_refl _⟩

/-- Witness for C7: on the `testPolicy` fixture (a single observation, the
action spec bounded by −1 and 1) the returned action component 1 lies within
the spec's interval. -/
theorem policy_action_within_action_spec_witness :
    fixtureActionSpec.minimum ≤ 1 ∧ (1 : ℝ) ≤ fixtureActionSpec.maximum :=
  policy_action_within_action_spec fixtureActionSpec
    (by norm_num [fixtureActionSpec]) 1 1
    (by simp [dummyActorPolicyAction, fixtureActionSpec])

/-- C8: with batch squashing enabled, `FRNConv.call` and
`MVNormalDiagParamHead.call` flatten all leading (outer) dimensions into one
batch dimension before the inner network and restore the original leading
shape afterward: for an input whose shape extends the declared spec's rank
by leading dimensions `outer`, the output carries exactly `outer` as its
leading dimensions (for the parameter head, whose fully connected encoder
returns a rank-2 `[batch, features]` tensor, both `loc` and `scale_diag`
have shape `outer ++ [output_dim]`). -/
theorem batch_squash_restores_leading_shape (outer inner : List ℕ)
    (spec_rank : ℕ) (h : inner.length = spec_rank)
    (encoder fc : List ℕ → List ℕ) (d b m : ℕ)
    (hfc : fc (batchSquashFlattenShape outer.length (outer ++ inner)) = [b, m]) :
    (frnConvCallShape spec_rank encoder true (outer ++ inner)).take outer.length
        = outer
      ∧ (mvnHeadCallShape spec_rank d fc true (outer ++ inner)).1 = outer ++ [d]
      ∧ (mvnHeadCallShape spec_rank d fc true (outer ++ inner)).2 = outer ++ [d] := by
  have hlen : (outer ++ inner).length - spec_rank = outer.length := by
    simp [List.length_append, h]
  have htake : (outer ++ inner).take outer.length = outer :=
    List.take_left outer inner
  constructor
  · simp only [frnConvCallShape, if_pos rfl, hlen, htake,
      batchSquashUnflattenShape]
    simp [List.take_left]
  · constructor
    · simp only [mvnHeadCallShape, hlen, htake, hfc]
      rw [batchSquashUnflattenShape]
      simp
    · simp only [mvnHeadCallShape, hlen, htake, hfc]
      rw [batchSquashUnflattenShape]
      simp

/-- Witness for C8: a `[2,3]`-batched input over a rank-1 spec: both
encoders restore the leading dimensions `[2, 3]`. -/
theorem batch_squash_restores_leading_shape_witness :
    (frnConvCallShape 1 id true ([2, 3] ++ [4])).take 2 = [2, 3]
      ∧ (mvnHeadCallShape 1 50 (fun _ => [6, 10]) true ([2, 3] ++ [4])).1
          = [2, 3] ++ [50]
      ∧ (mvnHeadCallShape 1 50 (fun _ => [6, 10]) true ([2, 3] ++ [4])).2
          = [2, 3] ++ [50] :=
  batch_squash_restores_leading_shape [2, 3] [4] 1 rfl id
    (fun _ => [6, 10]) 50 6 10 rfl

/-- C9: the `scale_diag` returned by `MVNormalDiagParamHead.call` is
strictly positive in every dimension: when the network's `scale` attribute
is a number, `scale_diag` equals that scale in every dimension with the same
shape as `loc`; when `scale` is `None`, `scale_diag = softplus(raw) ·
(0.693 / softplus(0)) + 1e-6`, strictly greater than 0 for every raw value. -/
theorem mvn_scale_diag_positive (sc : ℝ) (fc : List ℝ → List ℝ)
    (input : List ℝ) (d : ℕ) :
    (mvnHeadCall (some sc) d fc input).2
        = (mvnHeadCall (some sc) d fc input).1.map (fun _ => sc)
      ∧ ∀ i : Fin ((mvnHeadCall none d fc input).2).length,
          0 < ((mvnHeadCall none d fc input).2).get i := by
  constructor
  · simp [mvnHeadCall]
  · have hall : ∀ y ∈ (mvnHeadCall none d fc input).2, 0 < y := by
      intro y hy
      simp only [mvnHeadCall, List.mem_map] at hy
      obtain ⟨r, _, rfl⟩ := hy
      have hsp : ∀ z : ℝ, 0 < softplus z := by
        intro z
        have hz : (1 : ℝ) < 1 + Real.exp z := by
          have := Real.exp_pos z
          linarith
        exact Real.log_pos hz
      have h1 : (0 : ℝ) < softplus r * (0.693 / softplus 0) :=
        mul_pos (hsp r) (div_pos (by norm_num) (hsp 0))
      have h2 : (0 : ℝ) < (1e-6 : ℝ) := by norm_num
      linarith
    intro i
    exact hall _ (List.get_mem _ _ _)

/-- C10: every element of the output of `FRN.call` is at least the
corresponding channel's `tau` parameter (the thresholded linear unit is an
elementwise maximum with `tau`); since `tau` is initialized to zeros, a
freshly built FRN layer's output is elementwise nonnegative. -/
theorem frn_output_ge_tau (B H W C : ℕ) (eps : ℝ)
    (gamma beta tau : Fin C → ℝ) (x : Fin B → Fin H → Fin W → Fin C → ℝ)
    (b : Fin B) (i : Fin H) (j : Fin W) (c : Fin C) :
    tau c ≤ frnCall B H W C eps gamma beta tau x b i j c
      ∧ 0 ≤ frnCall B H W C eps gamma beta (fun _ => 0) x b i j c :=
  ⟨le_max_right _ _, le_max_right _ _⟩

end Pisac
